import Mathlib

/-!
# Air Tracker flight analytics: shallow embedding

Shallow embedding of the two source files of the repository:

* `api_data_collection.py` — the Collector: creates a SQLite database
  (tables `airport`, `aircraft`, `flights`, `airport_delays`) and populates
  it with `INSERT OR IGNORE` statements (`insert_airport`, `insert_aircraft`,
  `insert_flight`) driven by fetches from an external HTTP API.
* `streamlit_app.py` — the Dashboard: read-only SQL queries over the same
  database, rendered in five views.

The database is modelled as a `Store`: one Lean list of rows per table, in
insertion (rowid) order.  SQL `NULL` is `Option.none`; SQL three-valued
comparison semantics are captured by `sqlEq` (a comparison with `NULL` is
never true).  The `airport_delays` table is declared by the source but never
written or read, so it is omitted from `Store`.
-/

namespace AirTracker

/-- SQL equality as used in `WHERE`/`JOIN`/conflict checks: `x = y` is true
only when both operands are non-`NULL` and equal; any comparison involving
`NULL` is not true. -/
def sqlEq (a b : Option String) : Bool :=
  match a, b with
  | some s, some t => s = t
  | _, _ => false

/-- A row of the `airport` table (source: `create_database`, lines 40-53).
`airport_id INTEGER PRIMARY KEY AUTOINCREMENT` is the list position and is
not modelled as a field.  `icao_code` and `iata_code` are each `UNIQUE`. -/
structure AirportRow where
  icao_code : Option String
  iata_code : Option String
  name : Option String
  city : Option String
  country : Option String
  continent : Option String
  latitude : Option ℚ
  longitude : Option ℚ
  timezone : Option String
deriving DecidableEq, Repr

/-- A row of the `aircraft` table (source: `create_database`, lines 56-65).
`registration` is `UNIQUE`. -/
structure AircraftRow where
  registration : Option String
  model : Option String
  manufacturer : Option String
  icao_type_code : Option String
  owner : Option String
deriving DecidableEq, Repr

/-- A row of the `flights` table (source: `create_database`, lines 68-85).
`flight_id` is declared `TEXT PRIMARY KEY`; in a SQLite rowid table such a
(non-`INTEGER`) primary key is only a `UNIQUE` index and, by documented
SQLite behaviour, accepts `NULL` values, and distinct `NULL`s never conflict
with each other.  The three `FOREIGN KEY` clauses are declared but not
enforced (SQLite foreign keys are off by default and the source never turns
them on). -/
structure FlightRow where
  flight_id : Option String
  flight_number : Option String
  aircraft_registration : Option String
  origin_iata : Option String
  destination_iata : Option String
  scheduled_departure : Option String
  actual_departure : Option String
  scheduled_arrival : Option String
  actual_arrival : Option String
  status : Option String
  airline_code : Option String
deriving DecidableEq, Repr

/-- The database: one list per populated table, each in rowid (insertion)
order. -/
structure Store where
  airports : List AirportRow
  flights : List FlightRow
  aircrafts : List AircraftRow
deriving DecidableEq, Repr

/-- `create_database` (lines 34-103): `CREATE TABLE IF NOT EXISTS` for each
table.  On a fresh database file this yields the empty store; on an existing
file it is a no-op (idempotent schema creation), which the claims use only
through the fresh case. -/
def create_database : Store := ⟨[], [], []⟩

/-- The airport fields read by `insert_airport` from the fetched JSON dict
via `.get` (lines 169-177); a missing key yields `None`, i.e. `none`. -/
structure AirportData where
  icao : Option String
  iata : Option String
  name : Option String
  city : Option String
  country : Option String
  continent : Option String
  latitude : Option ℚ
  longitude : Option ℚ
  timezone : Option String
deriving DecidableEq, Repr

/-- The aircraft fields read by `insert_aircraft` (lines 192-196). -/
structure AircraftData where
  registration : Option String
  model : Option String
  manufacturer : Option String
  icaoTypeCode : Option String
  owner : Option String
deriving DecidableEq, Repr

/-- The flight fields read by `insert_flight` (lines 213-223).  Each nested
`.get` chain — for example the departure airport IATA code is read as
flight_data .get departure .get airport .get iata with empty-dict defaults —
collapses to one optional value. -/
structure FlightData where
  number : Option String
  aircraft_registration : Option String
  departure_airport_iata : Option String
  arrival_airport_iata : Option String
  departure_scheduledTimeUtc : Option String
  departure_actualTimeUtc : Option String
  arrival_scheduledTimeUtc : Option String
  arrival_actualTimeUtc : Option String
  status : Option String
  airline_iata : Option String
deriving DecidableEq, Repr

/-- The `airport` row built by the `INSERT` statement of `insert_airport`
(column list on line 166, values on lines 169-177). -/
def airportRowOf (d : AirportData) : AirportRow :=
  ⟨d.icao, d.iata, d.name, d.city, d.country, d.continent,
   d.latitude, d.longitude, d.timezone⟩

/-- The `aircraft` row built by `insert_aircraft` (lines 189-196). -/
def aircraftRowOf (d : AircraftData) : AircraftRow :=
  ⟨d.registration, d.model, d.manufacturer, d.icaoTypeCode, d.owner⟩

/-- The `flights` row built by `insert_flight` (lines 208-223): note that
the same fetched number field is used for both `flight_id` and
`flight_number`. -/
def flightRowOf (d : FlightData) : FlightRow :=
  ⟨d.number, d.number, d.aircraft_registration,
   d.departure_airport_iata, d.arrival_airport_iata,
   d.departure_scheduledTimeUtc, d.departure_actualTimeUtc,
   d.arrival_scheduledTimeUtc, d.arrival_actualTimeUtc,
   d.status, d.airline_iata⟩

/-- Whether the `INSERT OR IGNORE INTO airport` statement hits a uniqueness
conflict: some existing row already carries the same non-`NULL` `icao_code`
or the same non-`NULL` `iata_code` (both columns are `UNIQUE`; `NULL`s never
conflict in SQLite). -/
def airportConflict (as : List AirportRow) (d : AirportData) : Bool :=
  as.any fun a => sqlEq a.icao_code d.icao || sqlEq a.iata_code d.iata

/-- `insert_airport` (lines 160-181): `INSERT OR IGNORE INTO airport`.  On a
uniqueness conflict the statement is ignored and the store is unchanged;
otherwise the new row is appended.  The surrounding `try/except` only logs,
so the function always returns normally. -/
def insert_airport (st : Store) (d : AirportData) : Store :=
  if airportConflict st.airports d then st
  else { st with airports := st.airports ++ [airportRowOf d] }

/-- Whether `INSERT OR IGNORE INTO aircraft` hits a conflict on the `UNIQUE`
`registration` column. -/
def aircraftConflict (cs : List AircraftRow) (d : AircraftData) : Bool :=
  cs.any fun c => sqlEq c.registration d.registration

/-- `insert_aircraft` (lines 183-200): `INSERT OR IGNORE INTO aircraft`. -/
def insert_aircraft (st : Store) (d : AircraftData) : Store :=
  if aircraftConflict st.aircrafts d then st
  else { st with aircrafts := st.aircrafts ++ [aircraftRowOf d] }

/-- Whether `INSERT OR IGNORE INTO flights` hits a conflict on `flight_id`
(`TEXT PRIMARY KEY`, i.e. a unique index on a rowid table): a conflict
requires an existing row with the same non-`NULL` `flight_id`; a `NULL`
`flight_id` never conflicts. -/
def flightConflict (fs : List FlightRow) (d : FlightData) : Bool :=
  fs.any fun f => sqlEq f.flight_id d.number

/-- `insert_flight` (lines 202-227): `INSERT OR IGNORE INTO flights`. -/
def insert_flight (st : Store) (d : FlightData) : Store :=
  if flightConflict st.flights d then st
  else { st with flights := st.flights ++ [flightRowOf d] }

/-- Step 2 of `main` (lines 244-252): for each airport code the fetched
result is either `none` (the `requests` call failed; `get_airport_info`
caught the exception, printed the error and returned `None`, so the
`if airport_info:` guard skips the insert) or `some d` (inserted).  The loop
always continues to the next code. -/
def collectAirports (st : Store) (results : List (Option AirportData)) : Store :=
  results.foldl (fun s r => match r with | none => s | some d => insert_airport s d) st

/-! ## Dashboard queries (`streamlit_app.py`)

Each view issues SQL text against the same database; the queries are
embedded as functions on `Store`.  SQLite specifics that matter here:
an aggregate query without `GROUP BY` always returns exactly one row;
division by zero yields `NULL` (not an error); `ROUND(NULL, 2)` is `NULL`;
`ORDER BY ... DESC` places `NULL`s last; the `LIKE` operator is
case-insensitive for ASCII letters. -/

/-- SQLite `ROUND(x, 2)` on a non-`NULL` numeric: round to two decimal
places, halves away from zero.  The source only applies it to non-negative
values, where rounding halves up (Mathlib `round`) and rounding halves away
from zero agree. -/
def round2 (q : ℚ) : ℚ := (round (q * 100) : ℤ) / 100

/-- SQLite division: `a / b` is `NULL` when `b = 0`. -/
def sqliteDiv (a b : ℚ) : Option ℚ := if b = 0 then none else some (a / b)

/-- The rows satisfying `WHERE status IS NOT NULL`. -/
def statusRows (st : Store) : List FlightRow :=
  st.flights.filter fun f => f.status.isSome

/-- The Home view delay-rate query (`show_home_dashboard`, lines 110-115):
`SELECT ROUND((COUNT(CASE WHEN status = ... THEN 1 END) * 100.0) /
COUNT(*), 2) as delay_pct FROM flights WHERE status IS NOT NULL`.
`COUNT(CASE ...)` counts the rows where the `CASE` expression is
non-`NULL`, i.e. those with status Delayed. -/
def delay_pct (st : Store) : Option ℚ :=
  (sqliteDiv ((statusRows st).countP (fun f => sqlEq f.status (some "Delayed")) * 100)
    (statusRows st).length).map round2

/-- The result set of the delay-rate query: an aggregate query without
`GROUP BY` always returns exactly one row. -/
def homeDelayResult (st : Store) : List (Option ℚ) := [delay_pct st]

/-- The value the Home view displays (line 117):
`pct = result.delay_pct.values[0] if not result.empty else 0`.
The fallback `0` is taken only when the dataframe is empty; a `NULL` cell in
a non-empty result is passed through (pandas renders it as NaN). -/
def displayedDelayPct (st : Store) : Option ℚ :=
  match homeDelayResult st with
  | [] => some 0
  | r :: _ => r

/-- The `WHERE f.destination_iata = code OR f.origin_iata = code` filter of
the Airport Explorer recent-flights query (line 239). -/
def touchingFlights (st : Store) (code : String) : List FlightRow :=
  st.flights.filter fun f =>
    sqlEq f.destination_iata (some code) || sqlEq f.origin_iata (some code)

/-- SQLite ordering on a nullable `TEXT` column: `NULL` sorts below every
string. -/
def optStrLe (a b : Option String) : Prop :=
  match a, b with
  | none, _ => True
  | some _, none => False
  | some s, some t => s ≤ t

instance : DecidableRel optStrLe := fun a b => by
  unfold optStrLe
  match a, b with
  | none, _ => exact inferInstanceAs (Decidable True)
  | some _, none => exact inferInstanceAs (Decidable False)
  | some s, some t => exact inferInstanceAs (Decidable (s ≤ t))

/-- Strict version of `optStrLe`. -/
def optStrLt (a b : Option String) : Prop :=
  match a, b with
  | none, none => False
  | none, some _ => True
  | some _, none => False
  | some s, some t => s < t

instance : DecidableRel optStrLt := fun a b => by
  unfold optStrLt
  match a, b with
  | none, none => exact inferInstanceAs (Decidable False)
  | none, some _ => exact inferInstanceAs (Decidable True)
  | some _, none => exact inferInstanceAs (Decidable False)
  | some s, some t => exact inferInstanceAs (Decidable (s < t))

/-- `ORDER BY f.scheduled_departure DESC`: row `f` may precede row `g` when
the key of `g` is at most the key of `f` (with `NULL` last). -/
def schedDescBefore (f g : FlightRow) : Prop :=
  optStrLe g.scheduled_departure f.scheduled_departure

instance : DecidableRel schedDescBefore := fun _ _ =>
  inferInstanceAs (Decidable (optStrLe _ _))

theorem optStrLe_total (a b : Option String) : optStrLe a b ∨ optStrLe b a := by
  unfold optStrLe
  match a, b with
  | none, none => exact Or.inl trivial
  | none, some _ => exact Or.inl trivial
  | some _, none => exact Or.inr trivial
  | some s, some t => exact (le_total s t).imp id id

theorem optStrLe_trans {a b c : Option String}
    (hab : optStrLe a b) (hbc : optStrLe b c) : optStrLe a c := by
  unfold optStrLe at *
  match a, b, c with
  | none, _, _ => trivial
  | some _, none, _ => exact hab.elim
  | some _, some _, none => exact hbc.elim
  | some s, some t, some u => exact le_trans hab hbc

instance : IsTotal FlightRow schedDescBefore where
  total f g := (optStrLe_total g.scheduled_departure f.scheduled_departure).imp id id

instance : IsTrans FlightRow schedDescBefore where
  trans _ _ _ hfg hgh := optStrLe_trans hgh hfg

/-- The flights selected by the Airport Explorer recent-flights query
(lines 229-242) before column projection: the flights touching the selected
airport, ordered by `scheduled_departure DESC`, `LIMIT 5`. -/
def recentSelected (st : Store) (code : String) : List FlightRow :=
  (List.insertionSort schedDescBefore (touchingFlights st code)).take 5

/-- `LEFT JOIN airport a ON f.<side>_iata = a.iata_code`, then `a.name`:
resolve the airport name for a nullable IATA reference.  `iata_code` is
`UNIQUE`, so the join matches at most one airport row; a flight whose
reference matches no airport row still produces a result row, with a `NULL`
name. -/
def joinedName (as : List AirportRow) (ref : Option String) : Option String :=
  match as.find? (fun a => sqlEq a.iata_code ref) with
  | none => none
  | some a => a.name

/-- A projected row of the recent-flights query (line 230-235):
`f.flight_number, a1.name as origin, a2.name as destination, f.status,
f.scheduled_departure`. -/
structure RecentRow where
  flight_number : Option String
  origin : Option String
  destination : Option String
  status : Option String
  scheduled_departure : Option String
deriving DecidableEq, Repr

/-- Projection of one selected flight through the two left joins. -/
def recentRowOf (st : Store) (f : FlightRow) : RecentRow :=
  ⟨f.flight_number, joinedName st.airports f.origin_iata,
   joinedName st.airports f.destination_iata, f.status, f.scheduled_departure⟩

/-- The full Airport Explorer recent-flights query result. -/
def recentFlights (st : Store) (code : String) : List RecentRow :=
  (recentSelected st code).map (recentRowOf st)

/-- ASCII lower-casing of the character sequence of a string, as applied by
the SQLite `LIKE` operator to both operands (`LIKE` is case-insensitive for
the 26 ASCII letters by default; `Char.toLower` lowers exactly those). -/
def lowerAscii (s : String) : List Char := s.data.map Char.toLower

/-- The `LIKE` test `col LIKE p` where the pattern `p` is the filter text
surrounded by percent wildcards, for filter text free of the `LIKE`
metacharacters (percent, underscore) and of quote characters: true when
`col` is non-`NULL` and contains the filter text as a substring up to ASCII
case.  A `NULL` column makes the `LIKE` expression `NULL`,
which a `WHERE` clause treats as false. -/
def likeSub (col : Option String) (pat : String) : Bool :=
  match col with
  | none => false
  | some s => decide ( List.IsInfix (lowerAscii pat) (lowerAscii s))

/-- The predicate of the Flight Search query built by string concatenation
in `show_flight_search` (lines 266-277): starting from `WHERE 1=1`, an
`AND flight_number LIKE ...` clause is added when the flight-number text box
is non-empty (Python truthiness of the string), an `AND status = ...` clause
when the status choice is not All, and an `AND airline_code LIKE ...`
clause when the airline text box is non-empty.  Modelled for filter texts
without SQL metacharacters, where the concatenated text is this
conjunction. -/
def searchPred (fn stat al : String) (f : FlightRow) : Bool :=
  (fn == "" || likeSub f.flight_number fn) &&
  (stat == "All" || sqlEq f.status (some stat)) &&
  (al == "" || likeSub f.airline_code al)

/-- The Flight Search result (`SELECT * FROM flights WHERE ... LIMIT 100`):
the matching rows in table order, capped at 100. -/
def flightSearch (st : Store) (fn stat al : String) : List FlightRow :=
  (st.flights.filter (searchPred fn stat al)).take 100

/-- The join rows of the Route Analysis busiest-routes query
(`show_route_analysis`, lines 333-345): `FROM flights f JOIN airport a1 ON
f.origin_iata = a1.iata_code JOIN airport a2 ON f.destination_iata =
a2.iata_code`. Inner joins: a flight appears once per pair of matching
airport rows, and not at all when either side matches none. -/
def routeJoinRows (st : Store) : List (FlightRow × AirportRow × AirportRow) :=
  st.flights.flatMap fun f =>
    (st.airports.filter fun a => sqlEq f.origin_iata a.iata_code).flatMap fun a1 =>
      (st.airports.filter fun a => sqlEq f.destination_iata a.iata_code).map fun a2 =>
        (f, a1, a2)

/-- The `GROUP BY f.origin_iata, f.destination_iata` keys, in first-seen
order over the join rows. -/
def routeKeys (st : Store) : List (Option String × Option String) :=
  ((routeJoinRows st).map fun r => (r.1.origin_iata, r.1.destination_iata)).dedup

/-- `COUNT(f.flight_id)` within one group: `COUNT(column)` counts only the
rows where the column is non-`NULL`. -/
def routeCount (st : Store) (k : Option String × Option String) : ℕ :=
  (routeJoinRows st).countP fun r =>
    decide ((r.1.origin_iata, r.1.destination_iata) = k) && r.1.flight_id.isSome

/-- `ORDER BY flight_count DESC` on grouped route rows. -/
def countDescBefore (x y : (Option String × Option String) × ℕ) : Prop :=
  y.2 ≤ x.2

instance : DecidableRel countDescBefore := fun x y =>
  inferInstanceAs (Decidable (y.2 ≤ x.2))

instance : IsTotal ((Option String × Option String) × ℕ) countDescBefore where
  total x y := (le_total y.2 x.2).imp id id

instance : IsTrans ((Option String × Option String) × ℕ) countDescBefore where
  trans _ _ _ hxy hyz := le_trans hyz hxy

/-- The busiest-routes query result, keyed by `(origin, destination)` with
its flight count: grouped, ordered by count descending, `LIMIT 10`.  (The
projected `a1.city`/`a2.city` columns are determined by the key through the
unique `iata_code` and are not repeated here.) -/
def busiestRoutes (st : Store) : List ((Option String × Option String) × ℕ) :=
  (List.insertionSort countDescBefore
    ((routeKeys st).map fun k => (k, routeCount st k))).take 10

/-! ## Helper lemmas -/

theorem sqlEq_eq_true_iff {a b : Option String} :
    sqlEq a b = true ↔ ∃ s, a = some s ∧ b = some s := by
  unfold sqlEq
  cases a <;> cases b <;> simp [eq_comm]

theorem sqlEq_none_right (a : Option String) : sqlEq a none = false := by
  cases a <;> rfl

theorem airportConflict_of_iata {as : List AirportRow} {d : AirportData}
    {a : AirportRow} (hmem : a ∈ as) {k : String}
    (h1 : a.iata_code = some k) (h2 : d.iata = some k) :
    airportConflict as d = true := by
  unfold airportConflict
  rw [List.any_eq_true]
  exact ⟨a, hmem, by rw [Bool.or_eq_true, sqlEq_eq_true_iff, sqlEq_eq_true_iff]
                     exact Or.inr ⟨k, h1, h2⟩⟩

theorem airportConflict_of_icao {as : List AirportRow} {d : AirportData}
    {a : AirportRow} (hmem : a ∈ as) {k : String}
    (h1 : a.icao_code = some k) (h2 : d.icao = some k) :
    airportConflict as d = true := by
  unfold airportConflict
  rw [List.any_eq_true]
  exact ⟨a, hmem, by rw [Bool.or_eq_true, sqlEq_eq_true_iff, sqlEq_eq_true_iff]
                     exact Or.inl ⟨k, h1, h2⟩⟩

theorem insert_flight_of_conflict {st : Store} {d : FlightData}
    (h : flightConflict st.flights d = true) : insert_flight st d = st := by
  unfold insert_flight
  rw [h]
  rfl

/-! ## Claim theorems -/

/-- C1: rerunning the Collector against an already-populated store creates
no new rows: when an airport with the same IATA code, an aircraft with the
same registration, and a flight with the same flight number are already
stored, `insert_airport`, `insert_aircraft` and `insert_flight` are each a
no-op that leaves the store (and hence the row count of every table)
unchanged. -/
theorem collector_reinsert_is_noop (st : Store)
    (ad : AirportData) (cd : AircraftData) (fd : FlightData) (k r n : String)
    (ha : ad.iata = some k) (ha' : ∃ a ∈ st.airports, a.iata_code = some k)
    (hc : cd.registration = some r)
    (hc' : ∃ c ∈ st.aircrafts, c.registration = some r)
    (hf : fd.number = some n) (hf' : ∃ f ∈ st.flights, f.flight_id = some n) :
    insert_airport st ad = st ∧ insert_aircraft st cd = st ∧
      insert_flight st fd = st ∧
      (insert_airport st ad).airports.length = st.airports.length ∧
      (insert_aircraft st cd).aircrafts.length = st.aircrafts.length ∧
      (insert_flight st fd).flights.length = st.flights.length := by
  obtain ⟨a, hamem, haeq⟩ := ha'
  obtain ⟨c, hcmem, hceq⟩ := hc'
  obtain ⟨f, hfmem, hfeq⟩ := hf'
  have h1 : insert_airport st ad = st := by
    unfold insert_airport
    rw [airportConflict_of_iata hamem haeq ha]
    rfl
  have h2 : insert_aircraft st cd = st := by
    unfold insert_aircraft
    have : aircraftConflict st.aircrafts cd = true := by
      unfold aircraftConflict
      rw [List.any_eq_true]
      exact ⟨c, hcmem, by rw [sqlEq_eq_true_iff]; exact ⟨r, hceq, hc⟩⟩
    rw [this]
    rfl
  have h3 : insert_flight st fd = st := by
    unfold insert_flight
    have : flightConflict st.flights fd = true := by
      unfold flightConflict
      rw [List.any_eq_true]
      exact ⟨f, hfmem, by rw [sqlEq_eq_true_iff]; exact ⟨n, hfeq, hf⟩⟩
    rw [this]
    rfl
  exact ⟨h1, h2, h3, by rw [h1], by rw [h2], by rw [h3]⟩

/-- Witness for C1 at a concrete populated store. -/
theorem collector_reinsert_is_noop_witness :
    insert_airport
        ⟨[⟨some "VIDP", some "DEL", some "Indira Gandhi", some "Delhi",
           some "India", some "AS", some 28, some 77, some "Asia/Kolkata"⟩],
         [⟨some "AI101", some "AI101", some "VT-ANL", some "DEL", some "LHR",
           some "2024-01-01T10:00Z", none, some "2024-01-01T18:00Z", none,
           some "Delayed", some "AI"⟩],
         [⟨some "VT-ANL", some "Boeing 787", some "Boeing", some "B788",
           some "Air India"⟩]⟩
        ⟨some "VIDP", some "DEL", some "Indira Gandhi", some "Delhi",
         some "India", some "AS", some 28, some 77, some "Asia/Kolkata"⟩ =
      ⟨[⟨some "VIDP", some "DEL", some "Indira Gandhi", some "Delhi",
         some "India", some "AS", some 28, some 77, some "Asia/Kolkata"⟩],
       [⟨some "AI101", some "AI101", some "VT-ANL", some "DEL", some "LHR",
         some "2024-01-01T10:00Z", none, some "2024-01-01T18:00Z", none,
         some "Delayed", some "AI"⟩],
       [⟨some "VT-ANL", some "Boeing 787", some "Boeing", some "B788",
         some "Air India"⟩]⟩ ∧
    insert_aircraft
        ⟨[⟨some "VIDP", some "DEL", some "Indira Gandhi", some "Delhi",
           some "India", some "AS", some 28, some 77, some "Asia/Kolkata"⟩],
         [⟨some "AI101", some "AI101", some "VT-ANL", some "DEL", some "LHR",
           some "2024-01-01T10:00Z", none, some "2024-01-01T18:00Z", none,
           some "Delayed", some "AI"⟩],
         [⟨some "VT-ANL", some "Boeing 787", some "Boeing", some "B788",
           some "Air India"⟩]⟩
        ⟨some "VT-ANL", some "Boeing 787", some "Boeing", some "B788",
         some "Air India"⟩ =
      ⟨[⟨some "VIDP", some "DEL", some "Indira Gandhi", some "Delhi",
         some "India", some "AS", some 28, some 77, some "Asia/Kolkata"⟩],
       [⟨some "AI101", some "AI101", some "VT-ANL", some "DEL", some "LHR",
         some "2024-01-01T10:00Z", none, some "2024-01-01T18:00Z", none,
         some "Delayed", some "AI"⟩],
       [⟨some "VT-ANL", some "Boeing 787", some "Boeing", some "B788",
         some "Air India"⟩]⟩ := by
  have h := collector_reinsert_is_noop
    ⟨[⟨some "VIDP", some "DEL", some "Indira Gandhi", some "Delhi",
       some "India", some "AS", some 28, some 77, some "Asia/Kolkata"⟩],
     [⟨some "AI101", some "AI101", some "VT-ANL", some "DEL", some "LHR",
       some "2024-01-01T10:00Z", none, some "2024-01-01T18:00Z", none,
       some "Delayed", some "AI"⟩],
     [⟨some "VT-ANL", some "Boeing 787", some "Boeing", some "B788",
       some "Air India"⟩]⟩
    ⟨some "VIDP", some "DEL", some "Indira Gandhi", some "Delhi",
     some "India", some "AS", some 28, some 77, some "Asia/Kolkata"⟩
    ⟨some "VT-ANL", some "Boeing 787", some "Boeing", some "B788",
     some "Air India"⟩
    ⟨some "AI101", none, none, none, none, none, none, none, none, none⟩
    "DEL" "VT-ANL" "AI101" rfl (by decide) rfl (by decide) rfl (by decide)
  exact ⟨h.1, h.2.1⟩

/-- C2: for two flights carrying the same non-null flight number (into a
store not yet holding that number), inserting the first and then the second
with `insert_flight` leaves exactly one `flights` row for that number: the
second insert is silently ignored (the store is unchanged by it) and the
surviving row is the one built from the first flight.  No exception reaches
the caller: `insert_flight` is total (the Python wrapper catches every
exception, and `INSERT OR IGNORE` does not even raise one). -/
theorem insert_flight_keeps_first (st : Store) (d1 d2 : FlightData) (n : String)
    (h1 : d1.number = some n) (h2 : d2.number = some n)
    (h0 : ∀ f ∈ st.flights, f.flight_id ≠ some n) :
    insert_flight (insert_flight st d1) d2 = insert_flight st d1 ∧
      ((insert_flight st d1).flights.filter
        fun f => sqlEq f.flight_id (some n)) = [flightRowOf d1] := by
  have hc1 : flightConflict st.flights d1 = false := by
    unfold flightConflict
    rw [List.any_eq_false]
    intro f hf
    simp only [Bool.not_eq_true, ← Bool.not_eq_true, sqlEq_eq_true_iff]
    rintro ⟨s, hfs, hds⟩
    rw [h1] at hds
    exact h0 f hf (hfs.trans (by injection hds with h; rw [h]))
  have hstep : insert_flight st d1 = { st with flights := st.flights ++ [flightRowOf d1] } := by
    unfold insert_flight
    rw [hc1]
    rfl
  have hrow : (flightRowOf d1).flight_id = some n := by
    unfold flightRowOf
    exact h1
  have hfilter : (st.flights.filter fun f => sqlEq f.flight_id (some n)) = [] := by
    rw [List.filter_eq_nil_iff]
    intro f hf
    simp only [Bool.not_eq_true, ← Bool.not_eq_true, sqlEq_eq_true_iff]
    rintro ⟨s, hfs, hns⟩
    exact h0 f hf (hfs.trans (by injection hns with h; rw [h]))
  constructor
  · have hc2 : flightConflict (insert_flight st d1).flights d2 = true := by
      rw [hstep]
      unfold flightConflict
      rw [List.any_eq_true]
      refine ⟨flightRowOf d1, by simp, ?_⟩
      rw [sqlEq_eq_true_iff]
      exact ⟨n, hrow, h2⟩
    exact insert_flight_of_conflict hc2
  · rw [hstep]
    show ((st.flights ++ [flightRowOf d1]).filter fun f => sqlEq f.flight_id (some n)) = _
    rw [List.filter_append, hfilter]
    simp only [List.nil_append, List.filter_eq_self]
    intro f hf
    rw [List.mem_singleton] at hf
    rw [hf, sqlEq_eq_true_iff]
    exact ⟨n, hrow, rfl⟩

/-- Witness for C2: two flights AI202 on different days inserted into the
fresh database. -/
theorem insert_flight_keeps_first_witness :
    insert_flight
        (insert_flight create_database
          ⟨some "AI202", none, some "DEL", some "BOM", some "2024-01-01T08:00Z",
           none, none, none, some "On Time", some "AI"⟩)
        ⟨some "AI202", none, some "DEL", some "BOM", some "2024-01-02T08:00Z",
         none, none, none, some "Delayed", some "AI"⟩ =
      insert_flight create_database
        ⟨some "AI202", none, some "DEL", some "BOM", some "2024-01-01T08:00Z",
         none, none, none, some "On Time", some "AI"⟩ ∧
    ((insert_flight create_database
        ⟨some "AI202", none, some "DEL", some "BOM", some "2024-01-01T08:00Z",
         none, none, none, some "On Time", some "AI"⟩).flights.filter
      fun f => sqlEq f.flight_id (some "AI202")) =
      [flightRowOf
        ⟨some "AI202", none, some "DEL", some "BOM", some "2024-01-01T08:00Z",
         none, none, none, some "On Time", some "AI"⟩] :=
  insert_flight_keeps_first create_database
    ⟨some "AI202", none, some "DEL", some "BOM", some "2024-01-01T08:00Z",
     none, none, none, some "On Time", some "AI"⟩
    ⟨some "AI202", none, some "DEL", some "BOM", some "2024-01-02T08:00Z",
     none, none, none, some "Delayed", some "AI"⟩
    "AI202" rfl rfl (by decide)

/-- C5: when the metadata fetch for one airport code fails,
`get_airport_info` returns `None`, so the step-2 loop of `main` inserts no
row for that code and processes the remaining codes exactly as it would had
the failing code not been fetched at all: a failed fetch anywhere in the
sequence of fetch results is simply skipped, and the loop never aborts
(`collectAirports` is total). -/
theorem collectAirports_skips_failed_fetch (st : Store)
    (pre post : List (Option AirportData)) :
    collectAirports st (pre ++ none :: post) = collectAirports st (pre ++ post) := by
  unfold collectAirports
  rw [List.foldl_append, List.foldl_append, List.foldl_cons]

/-- C9: a later `insert_airport` whose data carries the IATA code (or the
ICAO code) of an airport row already in the store leaves the whole store
unchanged: every field of the existing row is retained (nothing is
overwritten or merged) and no other table is touched. -/
theorem insert_airport_retains_existing (st : Store) (d : AirportData)
    (h : ∃ a ∈ st.airports, (∃ k, a.iata_code = some k ∧ d.iata = some k) ∨
          ∃ k, a.icao_code = some k ∧ d.icao = some k) :
    insert_airport st d = st := by
  obtain ⟨a, hmem, h⟩ := h
  unfold insert_airport
  rcases h with ⟨k, h1, h2⟩ | ⟨k, h1, h2⟩
  · rw [airportConflict_of_iata hmem h1 h2]
    rfl
  · rw [airportConflict_of_icao hmem h1 h2]
    rfl

/-- Witness for C9: refreshed data for DEL (same IATA code, changed name and
coordinates) does not touch the stored row. -/
theorem insert_airport_retains_existing_witness :
    insert_airport
        ⟨[⟨some "VIDP", some "DEL", some "Indira Gandhi", some "Delhi",
           some "India", some "AS", some 28, some 77, some "Asia/Kolkata"⟩],
         [], []⟩
        ⟨some "VIDP", some "DEL", some "Indira Gandhi Intl", some "New Delhi",
         some "India", some "AS", some 29, some 78, some "Asia/Kolkata"⟩ =
      ⟨[⟨some "VIDP", some "DEL", some "Indira Gandhi", some "Delhi",
         some "India", some "AS", some 28, some 77, some "Asia/Kolkata"⟩],
       [], []⟩ :=
  insert_airport_retains_existing
    ⟨[⟨some "VIDP", some "DEL", some "Indira Gandhi", some "Delhi",
       some "India", some "AS", some 28, some 77, some "Asia/Kolkata"⟩],
     [], []⟩
    ⟨some "VIDP", some "DEL", some "Indira Gandhi Intl", some "New Delhi",
     some "India", some "AS", some 29, some 78, some "Asia/Kolkata"⟩
    ⟨⟨some "VIDP", some "DEL", some "Indira Gandhi", some "Delhi",
       some "India", some "AS", some 28, some 77, some "Asia/Kolkata"⟩,
     by decide, Or.inl ⟨"DEL", rfl, rfl⟩⟩

/-- C10: the keep-first behaviour of the `flights` table holds only for
non-null flight numbers.  `flight_id` is a `TEXT PRIMARY KEY` on a SQLite
rowid table, so a `NULL` key is accepted and `NULL`s never collide: every
`insert_flight` whose data has a `NULL` flight number appends a fresh row
(with `NULL` `flight_id`), and a whole sequence of such inserts grows the
table by one row each. -/
theorem insert_flight_null_number_always_appends (st : Store)
    (ds : List FlightData) (h : ∀ d ∈ ds, d.number = none) :
    (ds.foldl insert_flight st).flights =
      st.flights ++ ds.map flightRowOf ∧
    (ds.foldl insert_flight st).flights.length =
      st.flights.length + ds.length ∧
    ∀ d ∈ ds, (flightRowOf d).flight_id = none := by
  have key : ∀ (st' : Store) (d : FlightData), d.number = none →
      insert_flight st' d = { st' with flights := st'.flights ++ [flightRowOf d] } := by
    intro st' d hd
    unfold insert_flight
    have : flightConflict st'.flights d = false := by
      unfold flightConflict
      rw [List.any_eq_false]
      intro f _
      rw [hd, Bool.not_eq_true, sqlEq_none_right]
    rw [this]
    rfl
  have main : ∀ (ds : List FlightData) (st : Store), (∀ d ∈ ds, d.number = none) →
      (ds.foldl insert_flight st).flights = st.flights ++ ds.map flightRowOf := by
    intro ds
    induction ds with
    | nil => intro st _; simp
    | cons d tl ih =>
      intro st hall
      rw [List.foldl_cons, key st d (hall d (by simp)),
        ih _ (fun x hx => hall x (by simp [hx]))]
      simp
  refine ⟨main ds st h, ?_, ?_⟩
  · rw [main ds st h]
    simp
  · intro d hd
    unfold flightRowOf
    exact h d hd

/-- Witness for C10: three flights with missing flight numbers all land in
the fresh database as three distinct rows with `NULL` `flight_id`. -/
theorem insert_flight_null_number_always_appends_witness :
    ([⟨none, some "VT-ANL", some "DEL", some "BOM", some "2024-01-01T08:00Z",
        none, none, none, some "On Time", some "AI"⟩,
      ⟨none, some "VT-ANM", some "DEL", some "BLR", some "2024-01-01T09:00Z",
        none, none, none, some "Delayed", some "AI"⟩,
      (⟨none, none, none, none, none, none, none, none, none, none⟩ :
        FlightData)].foldl insert_flight create_database).flights =
      create_database.flights ++
        [⟨none, some "VT-ANL", some "DEL", some "BOM", some "2024-01-01T08:00Z",
           none, none, none, some "On Time", some "AI"⟩,
         ⟨none, some "VT-ANM", some "DEL", some "BLR", some "2024-01-01T09:00Z",
           none, none, none, some "Delayed", some "AI"⟩,
         (⟨none, none, none, none, none, none, none, none, none,
           none⟩ : FlightData)].map flightRowOf ∧
    ([⟨none, some "VT-ANL", some "DEL", some "BOM", some "2024-01-01T08:00Z",
        none, none, none, some "On Time", some "AI"⟩,
      ⟨none, some "VT-ANM", some "DEL", some "BLR", some "2024-01-01T09:00Z",
        none, none, none, some "Delayed", some "AI"⟩,
      (⟨none, none, none, none, none, none, none, none, none, none⟩ :
        FlightData)].foldl insert_flight create_database).flights.length =
      create_database.flights.length + 3 :=
  have h := insert_flight_null_number_always_appends create_database
    [⟨none, some "VT-ANL", some "DEL", some "BOM", some "2024-01-01T08:00Z",
       none, none, none, some "On Time", some "AI"⟩,
     ⟨none, some "VT-ANM", some "DEL", some "BLR", some "2024-01-01T09:00Z",
       none, none, none, some "Delayed", some "AI"⟩,
     ⟨none, none, none, none, none, none, none, none, none, none⟩]
    (by decide)
  ⟨h.1, h.2.1⟩

/-- C3: with N flights of non-null status, D of them Delayed and N positive,
the Home view delay-rate query returns `round(D * 100.0 / N, 2)`; null
status rows count in neither D nor N. -/
theorem delay_rate_formula (st : Store)
    (hN : 0 < st.flights.countP fun f => f.status.isSome) :
    delay_pct st =
      some (round2
        (((st.flights.countP fun f => f.status = some "Delayed") * 100 : ℚ) /
          (st.flights.countP fun f => f.status.isSome : ℚ))) := by
  have hlen : (statusRows st).length = st.flights.countP fun f => f.status.isSome := by
    unfold statusRows
    rw [List.countP_eq_length_filter]
  have hD : ((statusRows st).countP fun f => sqlEq f.status (some "Delayed")) =
      st.flights.countP fun f => f.status = some "Delayed" := by
    unfold statusRows
    rw [List.countP_filter]
    refine List.countP_congr fun f _ => ?_
    cases hs : f.status with
    | none => simp [sqlEq]
    | some s => simp [sqlEq]
  unfold delay_pct
  rw [hlen, hD]
  unfold sqliteDiv
  rw [if_neg (Nat.cast_ne_zero.mpr hN.ne' : ((st.flights.countP fun f => f.status.isSome : ℕ) : ℚ) ≠ 0)]
  rfl

/-- Witness for C3: of three stored flights one is Delayed, one On Time and
one has no status, so N = 2, D = 1 and the reported rate is 50. -/
theorem delay_rate_formula_witness :
    (0 < (⟨[],
      [⟨some "AI101", some "AI101", none, some "DEL", some "LHR",
         some "2024-01-01T10:00Z", none, none, none, some "Delayed", some "AI"⟩,
       ⟨some "BA202", some "BA202", none, some "LHR", some "DEL",
         some "2024-01-01T11:00Z", none, none, none, some "On Time", some "BA"⟩,
       ⟨some "AI303", some "AI303", none, some "BOM", some "DEL",
         some "2024-01-01T12:00Z", none, none, none, none, some "AI"⟩],
      []⟩ : Store).flights.countP fun f => f.status.isSome) ∧
    delay_pct
      ⟨[],
       [⟨some "AI101", some "AI101", none, some "DEL", some "LHR",
          some "2024-01-01T10:00Z", none, none, none, some "Delayed", some "AI"⟩,
        ⟨some "BA202", some "BA202", none, some "LHR", some "DEL",
          some "2024-01-01T11:00Z", none, none, none, some "On Time", some "BA"⟩,
        ⟨some "AI303", some "AI303", none, some "BOM", some "DEL",
          some "2024-01-01T12:00Z", none, none, none, none, some "AI"⟩],
       []⟩ = some 50 := by
  refine ⟨by decide, ?_⟩
  rw [delay_rate_formula
    ⟨[],
     [⟨some "AI101", some "AI101", none, some "DEL", some "LHR",
        some "2024-01-01T10:00Z", none, none, none, some "Delayed", some "AI"⟩,
      ⟨some "BA202", some "BA202", none, some "LHR", some "DEL",
        some "2024-01-01T11:00Z", none, none, none, some "On Time", some "BA"⟩,
      ⟨some "AI303", some "AI303", none, some "BOM", some "DEL",
        some "2024-01-01T12:00Z", none, none, none, none, some "AI"⟩],
     []⟩ (by decide)]
  have hn : ((⟨[],
      [⟨some "AI101", some "AI101", none, some "DEL", some "LHR",
         some "2024-01-01T10:00Z", none, none, none, some "Delayed", some "AI"⟩,
       ⟨some "BA202", some "BA202", none, some "LHR", some "DEL",
         some "2024-01-01T11:00Z", none, none, none, some "On Time", some "BA"⟩,
       ⟨some "AI303", some "AI303", none, some "BOM", some "DEL",
         some "2024-01-01T12:00Z", none, none, none, none, some "AI"⟩],
      []⟩ : Store).flights.countP fun f => f.status.isSome) = 2 := by decide
  have hd : ((⟨[],
      [⟨some "AI101", some "AI101", none, some "DEL", some "LHR",
         some "2024-01-01T10:00Z", none, none, none, some "Delayed", some "AI"⟩,
       ⟨some "BA202", some "BA202", none, some "LHR", some "DEL",
         some "2024-01-01T11:00Z", none, none, none, some "On Time", some "BA"⟩,
       ⟨some "AI303", some "AI303", none, some "BOM", some "DEL",
         some "2024-01-01T12:00Z", none, none, none, none, some "AI"⟩],
      []⟩ : Store).flights.countP fun f => f.status = some "Delayed") = 1 := by decide
  rw [hn, hd]
  norm_num [round2, round_eq]

/-- C4, recorded as a code bug: on a store with no flight of non-null
status (for example the fresh database) the aggregate delay-rate query
still returns one row, whose single cell is `NULL` (SQLite division by
zero), so the dashboard fallback to 0 — which tests `result.empty` — never
fires and the displayed value is the null (rendered NaN), not the defined
default the spec requires.  No division error is raised. -/
theorem delay_rate_empty_store_displays_null :
    homeDelayResult create_database ≠ [] ∧
    displayedDelayPct create_database = none ∧
    displayedDelayPct create_database ≠ some 0 := by
  refine ⟨by decide, by decide, by decide⟩

theorem optStrLt_of_le_of_ne {a b : Option String}
    (hle : optStrLe a b) (hne : a ≠ b) : optStrLt a b := by
  unfold optStrLe at hle
  unfold optStrLt
  match a, b with
  | none, none => exact absurd rfl hne
  | none, some _ => trivial
  | some _, none => exact hle.elim
  | some s, some t =>
    exact lt_of_le_of_ne hle fun h => hne (by rw [h])

/-- Sample store for the Airport Explorer view: two airport rows, six
flights touching DEL (one of them referencing the absent airport XXX), one
flight not touching DEL, all with distinct scheduled departures. -/
def explorerStore : Store :=
  ⟨[⟨some "VIDP", some "DEL", some "Indira Gandhi", some "Delhi",
     some "India", some "AS", some 28, some 77, some "Asia/Kolkata"⟩,
    ⟨some "EGLL", some "LHR", some "Heathrow", some "London",
     some "United Kingdom", some "EU", some 51, some 0, some "Europe/London"⟩],
   [⟨some "AI101", some "AI101", none, some "DEL", some "LHR",
      some "2024-01-01T10:00Z", none, none, none, some "On Time", some "AI"⟩,
    ⟨some "BA202", some "BA202", none, some "LHR", some "DEL",
      some "2024-01-02T10:00Z", none, none, none, some "Delayed", some "BA"⟩,
    ⟨some "AI303", some "AI303", none, some "XXX", some "DEL",
      some "2024-01-03T10:00Z", none, none, none, some "On Time", some "AI"⟩,
    ⟨some "AI404", some "AI404", none, some "DEL", some "BOM",
      some "2024-01-04T10:00Z", none, none, none, some "Cancelled", some "AI"⟩,
    ⟨some "BA505", some "BA505", none, some "LHR", some "BOM",
      some "2024-01-05T10:00Z", none, none, none, some "On Time", some "BA"⟩,
    ⟨some "AI606", some "AI606", none, some "DEL", some "LHR",
      some "2024-01-06T10:00Z", none, none, none, some "Delayed", some "AI"⟩,
    ⟨some "AI707", some "AI707", none, some "BOM", some "DEL",
      some "2024-01-07T10:00Z", none, none, none, some "On Time", some "AI"⟩],
   []⟩

/-- C6: when all stored flights carry distinct non-null scheduled-departure
timestamps, the Airport Explorer recent-flights query returns exactly the
at-most-5 flights with the greatest scheduled departures among those whose
origin or destination equals the selected code, in strictly descending
order of scheduled departure; membership is decided by the `flights` table
alone (the airport names are resolved afterwards through left joins, so a
flight referencing a missing airport row is still returned, with a null
name). -/
theorem recent_flights_top5 (st : Store) (code : String)
    (hsome : ∀ f ∈ st.flights, f.scheduled_departure.isSome)
    (hdist : st.flights.Pairwise
      fun f g => f.scheduled_departure ≠ g.scheduled_departure) :
    recentFlights st code = (recentSelected st code).map (recentRowOf st) ∧
    (recentSelected st code).length = min 5 (touchingFlights st code).length ∧
    (∀ f ∈ recentSelected st code, f ∈ touchingFlights st code ∧
      f.scheduled_departure.isSome) ∧
    (recentSelected st code).Pairwise
      (fun f g => optStrLt g.scheduled_departure f.scheduled_departure) ∧
    (∀ f ∈ touchingFlights st code, f ∉ recentSelected st code →
      ∀ g ∈ recentSelected st code,
        optStrLt f.scheduled_departure g.scheduled_departure) ∧
    (∀ as2 : List AirportRow,
      recentSelected ⟨as2, st.flights, st.aircrafts⟩ code = recentSelected st code) := by
  have hsub : List.Sublist (touchingFlights st code) st.flights :=
    List.filter_sublist _
  have hperm : List.Perm
      (List.insertionSort schedDescBefore (touchingFlights st code))
      (touchingFlights st code) := List.perm_insertionSort _ _
  have hsorted : (List.insertionSort schedDescBefore
      (touchingFlights st code)).Pairwise schedDescBefore :=
    List.sorted_insertionSort _ _
  have htdist : (touchingFlights st code).Pairwise
      (fun f g => f.scheduled_departure ≠ g.scheduled_departure) :=
    List.Pairwise.sublist hsub hdist
  have hsdist : (List.insertionSort schedDescBefore
      (touchingFlights st code)).Pairwise
      (fun f g => f.scheduled_departure ≠ g.scheduled_departure) :=
    (List.Perm.pairwise_iff (fun h => h.symm) hperm).mpr htdist
  have hboth : (List.insertionSort schedDescBefore
      (touchingFlights st code)).Pairwise
      (fun f g => schedDescBefore f g ∧
        f.scheduled_departure ≠ g.scheduled_departure) :=
    List.Pairwise.and hsorted hsdist
  refine ⟨rfl, ?_, ?_, ?_, ?_, fun as2 => rfl⟩
  · show (List.take 5 _).length = _
    rw [List.length_take, hperm.length_eq]
  · intro f hf
    have hmem : f ∈ touchingFlights st code :=
      hperm.mem_iff.mp (List.mem_of_mem_take hf)
    exact ⟨hmem, hsome f (hsub.mem hmem)⟩
  · have htake : (recentSelected st code).Pairwise
        (fun f g => schedDescBefore f g ∧
          f.scheduled_departure ≠ g.scheduled_departure) :=
      List.Pairwise.sublist (List.take_sublist _ _) hboth
    exact htake.imp fun h => optStrLt_of_le_of_ne h.1 h.2.symm
  · intro f hf hfnot g hg
    have hfs : f ∈ List.insertionSort schedDescBefore (touchingFlights st code) :=
      hperm.mem_iff.mpr hf
    have hsplit := List.take_append_drop 5
      (List.insertionSort schedDescBefore (touchingFlights st code))
    have hfd : f ∈ (List.insertionSort schedDescBefore
        (touchingFlights st code)).drop 5 := by
      rcases List.mem_append.mp (by rw [hsplit]; exact hfs) with h | h
      · exact absurd h hfnot
      · exact h
    have hcross := (List.pairwise_append.mp (by rw [hsplit]; exact hboth)).2.2
    have h := hcross g hg f hfd
    exact optStrLt_of_le_of_ne h.1 h.2.symm

/-- Witness for C6 on `explorerStore`, selecting DEL. -/
theorem recent_flights_top5_witness :
    recentFlights explorerStore "DEL" =
      (recentSelected explorerStore "DEL").map (recentRowOf explorerStore) ∧
    (recentSelected explorerStore "DEL").length =
      min 5 (touchingFlights explorerStore "DEL").length ∧
    (∀ f ∈ recentSelected explorerStore "DEL",
      f ∈ touchingFlights explorerStore "DEL" ∧
      f.scheduled_departure.isSome) ∧
    (recentSelected explorerStore "DEL").Pairwise
      (fun f g => optStrLt g.scheduled_departure f.scheduled_departure) ∧
    (∀ f ∈ touchingFlights explorerStore "DEL",
      f ∉ recentSelected explorerStore "DEL" →
      ∀ g ∈ recentSelected explorerStore "DEL",
        optStrLt f.scheduled_departure g.scheduled_departure) ∧
    (∀ as2 : List AirportRow,
      recentSelected ⟨as2, explorerStore.flights, explorerStore.aircrafts⟩
          "DEL" =
        recentSelected explorerStore "DEL") :=
  recent_flights_top5 explorerStore "DEL" (by decide) (by decide)

/-- Counterexample to C7 as stated: searching with flight-number text ai
returns the stored flight AI202 (SQLite `LIKE` is case-insensitive for
ASCII), yet the string AI202 does not contain ai as a substring, so a
returned row can fail the literal contains-the-substring reading of the
claim. -/
theorem flight_search_substring_counterexample :
    flightSearch
        ⟨[], [⟨some "AI202", some "AI202", none, some "DEL", some "BOM",
               some "2024-01-01T08:00Z", none, none, none, some "On Time",
               some "AI"⟩], []⟩ "ai" "All" "" =
      [⟨some "AI202", some "AI202", none, some "DEL", some "BOM",
        some "2024-01-01T08:00Z", none, none, none, some "On Time",
        some "AI"⟩] ∧
    ¬ List.IsInfix "ai".data "AI202".data := by
  refine ⟨by decide, by decide⟩

/-- C7 (amended): for every combination of the three Flight Search filters,
the query returns at most 100 rows; every returned row is a stored flight
satisfying each supplied filter, where the two free-text filters match by
case-insensitive (ASCII, per the SQLite `LIKE` default) substring
containment rather than literal containment; the status filter, when not
All, requires the exact stored status; and a filter left empty imposes no
constraint (with all three unfiltered the result is just the first 100
stored flights). -/
theorem flight_search_filters (st : Store) (fn stat al : String) :
    (flightSearch st fn stat al).length ≤ 100 ∧
    (∀ f ∈ flightSearch st fn stat al, f ∈ st.flights ∧
      (fn ≠ "" → likeSub f.flight_number fn = true) ∧
      (stat ≠ "All" → f.status = some stat) ∧
      (al ≠ "" → likeSub f.airline_code al = true)) ∧
    flightSearch st "" "All" "" = st.flights.take 100 := by
  refine ⟨List.length_take_le _ _, ?_, ?_⟩
  · intro f hf
    have hmem := List.mem_of_mem_take hf
    rw [List.mem_filter] at hmem
    obtain ⟨hmem, hpred⟩ := hmem
    unfold searchPred at hpred
    simp only [Bool.and_eq_true, Bool.or_eq_true, beq_iff_eq] at hpred
    obtain ⟨⟨h1, h2⟩, h3⟩ := hpred
    refine ⟨hmem, ?_, ?_, ?_⟩
    · intro hne
      rcases h1 with h | h
      · exact absurd h hne
      · exact h
    · intro hne
      rcases h2 with h | h
      · exact absurd h hne
      · obtain ⟨s, hs1, hs2⟩ := sqlEq_eq_true_iff.mp h
        rw [hs1]
        injection hs2 with hs2
        rw [hs2]
    · intro hne
      rcases h3 with h | h
      · exact absurd h hne
      · exact h
  · unfold flightSearch
    rw [List.filter_eq_self.mpr fun f _ => by simp [searchPred]]

/-- Witness for C7 (amended) at a concrete store and filter combination. -/
theorem flight_search_filters_witness :
    (flightSearch explorerStore "AI" "Delayed" "").length ≤ 100 ∧
    (∀ f ∈ flightSearch explorerStore "AI" "Delayed" "",
      f ∈ explorerStore.flights ∧
      ("AI" ≠ "" → likeSub f.flight_number "AI" = true) ∧
      ("Delayed" ≠ "All" → f.status = some "Delayed") ∧
      ("" ≠ "" → likeSub f.airline_code "" = true)) ∧
    flightSearch explorerStore "" "All" "" = explorerStore.flights.take 100 :=
  flight_search_filters explorerStore "AI" "Delayed" ""

/-- C8: the busiest-routes query of Route Analysis inner-joins the airport
table on both route endpoints, so a flight whose origin or destination
matches no stored airport IATA code produces no join row at all: adding
such a flight to the store changes neither the join rows, nor any group
key, nor any group count, nor the final ordered-and-limited result. -/
theorem busiest_routes_exclude_unmatched (st : Store) (f : FlightRow)
    (h : (∀ a ∈ st.airports, sqlEq f.origin_iata a.iata_code = false) ∨
         (∀ a ∈ st.airports, sqlEq f.destination_iata a.iata_code = false)) :
    routeJoinRows ⟨st.airports, f :: st.flights, st.aircrafts⟩ =
      routeJoinRows st ∧
    routeKeys ⟨st.airports, f :: st.flights, st.aircrafts⟩ = routeKeys st ∧
    (∀ k, routeCount ⟨st.airports, f :: st.flights, st.aircrafts⟩ k =
      routeCount st k) ∧
    busiestRoutes ⟨st.airports, f :: st.flights, st.aircrafts⟩ =
      busiestRoutes st := by
  have hJ : routeJoinRows ⟨st.airports, f :: st.flights, st.aircrafts⟩ =
      routeJoinRows st := by
    unfold routeJoinRows
    show (f :: st.flights).flatMap _ = st.flights.flatMap _
    rw [List.flatMap_cons]
    rcases h with h | h
    · have hnil : (st.airports.filter fun a => sqlEq f.origin_iata a.iata_code) = [] :=
        List.filter_eq_nil_iff.mpr fun a ha => by
          rw [h a ha]
          exact Bool.false_ne_true
      simp [hnil]
    · have hnil : (st.airports.filter fun a => sqlEq f.destination_iata a.iata_code) = [] :=
        List.filter_eq_nil_iff.mpr fun a ha => by
          rw [h a ha]
          exact Bool.false_ne_true
      simp [hnil]
  refine ⟨hJ, ?_, ?_, ?_⟩
  · unfold routeKeys
    rw [hJ]
  · intro k
    unfold routeCount
    rw [hJ]
  · unfold busiestRoutes routeKeys routeCount
    rw [hJ]

/-- Witness for C8: a flight departing the unstored airport BOM joins
nothing, so the busiest-routes result is the same with or without it. -/
theorem busiest_routes_exclude_unmatched_witness :
    routeJoinRows
        ⟨[⟨some "VIDP", some "DEL", some "Indira Gandhi", some "Delhi",
           some "India", some "AS", some 28, some 77, some "Asia/Kolkata"⟩],
         [⟨some "AI900", some "AI900", none, some "BOM", some "DEL",
            some "2024-01-01T08:00Z", none, none, none, some "On Time", some "AI"⟩,
          ⟨some "AI901", some "AI901", none, some "DEL", some "DEL",
            some "2024-01-02T08:00Z", none, none, none, some "Delayed", some "AI"⟩],
         []⟩ =
      routeJoinRows
        ⟨[⟨some "VIDP", some "DEL", some "Indira Gandhi", some "Delhi",
           some "India", some "AS", some 28, some 77, some "Asia/Kolkata"⟩],
         [⟨some "AI901", some "AI901", none, some "DEL", some "DEL",
            some "2024-01-02T08:00Z", none, none, none, some "Delayed", some "AI"⟩],
         []⟩ ∧
    routeKeys
        ⟨[⟨some "VIDP", some "DEL", some "Indira Gandhi", some "Delhi",
           some "India", some "AS", some 28, some 77, some "Asia/Kolkata"⟩],
         [⟨some "AI900", some "AI900", none, some "BOM", some "DEL",
            some "2024-01-01T08:00Z", none, none, none, some "On Time", some "AI"⟩,
          ⟨some "AI901", some "AI901", none, some "DEL", some "DEL",
            some "2024-01-02T08:00Z", none, none, none, some "Delayed", some "AI"⟩],
         []⟩ =
      routeKeys
        ⟨[⟨some "VIDP", some "DEL", some "Indira Gandhi", some "Delhi",
           some "India", some "AS", some 28, some 77, some "Asia/Kolkata"⟩],
         [⟨some "AI901", some "AI901", none, some "DEL", some "DEL",
            some "2024-01-02T08:00Z", none, none, none, some "Delayed", some "AI"⟩],
         []⟩ ∧
    (∀ k, routeCount
        ⟨[⟨some "VIDP", some "DEL", some "Indira Gandhi", some "Delhi",
           some "India", some "AS", some 28, some 77, some "Asia/Kolkata"⟩],
         [⟨some "AI900", some "AI900", none, some "BOM", some "DEL",
            some "2024-01-01T08:00Z", none, none, none, some "On Time", some "AI"⟩,
          ⟨some "AI901", some "AI901", none, some "DEL", some "DEL",
            some "2024-01-02T08:00Z", none, none, none, some "Delayed", some "AI"⟩],
         []⟩ k =
      routeCount
        ⟨[⟨some "VIDP", some "DEL", some "Indira Gandhi", some "Delhi",
           some "India", some "AS", some 28, some 77, some "Asia/Kolkata"⟩],
         [⟨some "AI901", some "AI901", none, some "DEL", some "DEL",
            some "2024-01-02T08:00Z", none, none, none, some "Delayed", some "AI"⟩],
         []⟩ k) ∧
    busiestRoutes
        ⟨[⟨some "VIDP", some "DEL", some "Indira Gandhi", some "Delhi",
           some "India", some "AS", some 28, some 77, some "Asia/Kolkata"⟩],
         [⟨some "AI900", some "AI900", none, some "BOM", some "DEL",
            some "2024-01-01T08:00Z", none, none, none, some "On Time", some "AI"⟩,
          ⟨some "AI901", some "AI901", none, some "DEL", some "DEL",
            some "2024-01-02T08:00Z", none, none, none, some "Delayed", some "AI"⟩],
         []⟩ =
      busiestRoutes
        ⟨[⟨some "VIDP", some "DEL", some "Indira Gandhi", some "Delhi",
           some "India", some "AS", some 28, some 77, some "Asia/Kolkata"⟩],
         [⟨some "AI901", some "AI901", none, some "DEL", some "DEL",
            some "2024-01-02T08:00Z", none, none, none, some "Delayed", some "AI"⟩],
         []⟩ :=
  busiest_routes_exclude_unmatched
    ⟨[⟨some "VIDP", some "DEL", some "Indira Gandhi", some "Delhi",
       some "India", some "AS", some 28, some 77, some "Asia/Kolkata"⟩],
     [⟨some "AI901", some "AI901", none, some "DEL", some "DEL",
        some "2024-01-02T08:00Z", none, none, none, some "Delayed", some "AI"⟩],
     []⟩
    ⟨some "AI900", some "AI900", none, some "BOM", some "DEL",
     some "2024-01-01T08:00Z", none, none, none, some "On Time", some "AI"⟩
    (Or.inl (by decide))

end AirTracker
